import Mathlib

/-!
Shallow embedding of the jbl-suno-dj polling subsystem.

Source files embedded here:
- `voice_to_suno_jbl.py` (`VoiceToSunoJBL.generate_music`, `VoiceToSunoJBL.wait_for_music`)
- `robust_suno_client.py` (`RobustSunoClient._make_request`, `generate_music`,
  `check_status`, `wait_for_completion`)
- `suno_stream_player.py` (`SunoStreamPlayer.wait_for_music`)

Modelling conventions:
- Deserialized JSON values are the inductive `JValue`; Python `None` is `JValue.null`.
- A Python expression that can raise (an `AttributeError` from calling `.get` on a
  non-dict, a `TypeError` from iterating a non-iterable) is modelled in `Except Unit`;
  `.error ()` is a raised exception, which the enclosing `try/except` blocks of the
  source absorb.
- The HTTP layer is a collaborator: a fetch sequence `Nat → Except Unit JValue`
  (per-poll parsed body, or a transport/HTTP/JSON failure that `raise_for_status`
  or `.json()` would turn into an exception), and for `RobustSunoClient` a
  per-attempt outcome sequence `Nat → HttpAttempt` feeding `_make_request`.
-/

/-- A deserialized JSON-like value, as handed around by the Python scripts.
Python `None` is `null`. -/
inductive JValue where
  | null
  | bool (b : Bool)
  | num (n : Int)
  | str (s : String)
  | arr (xs : List JValue)
  | obj (kvs : List (String × JValue))

/-- Python `v == s` against a string literal `s`: true exactly when `v` is that string. -/
def isStr : JValue → String → Bool
  | .str s, t => s == t
  | _, _ => false

/-- Python `v == m` against an int literal `m`. -/
def isNum : JValue → Int → Bool
  | .num n, m => n == m
  | _, _ => false

/-- Python `v is None`. -/
def isNone : JValue → Bool
  | .null => true
  | _ => false

/-- First-match lookup in a key/value list (Python dict lookup; dict keys are unique,
so first-match agrees with dict semantics). -/
def lookupKV : List (String × JValue) → String → Option JValue
  | [], _ => none
  | (k, v) :: rest, key => if k = key then some v else lookupKV rest key

/-- Python `d.get(key, default)` on a dict `d` given as its key/value list. -/
def objGetD (kvs : List (String × JValue)) (k : String) (d : JValue) : JValue :=
  match lookupKV kvs k with
  | some v => v
  | none => d

/-- Python `d.get(key)` on a dict: absent keys give `None`. -/
def objGet (kvs : List (String × JValue)) (k : String) : JValue :=
  objGetD kvs k .null

/-- Python `v.get(key, default)` on an arbitrary value: raises `AttributeError`
(modelled `.error ()`) when `v` is not a dict. -/
def pyGetD : JValue → String → JValue → Except Unit JValue
  | .obj kvs, k, d => .ok (objGetD kvs k d)
  | _, _, _ => .error ()

/-- Python `v.get(key)` on an arbitrary value. -/
def pyGet (v : JValue) (k : String) : Except Unit JValue :=
  pyGetD v k .null

/-- Python truthiness of a JSON value. -/
def JValue.truthy : JValue → Bool
  | .null => false
  | .bool b => b
  | .num n => n != 0
  | .str s => s != ""
  | .arr xs => !xs.isEmpty
  | .obj kvs => !kvs.isEmpty

/-- Python `v == "null"`: true exactly for the string `"null"`. -/
def isNullStr : JValue → Bool
  | .str s => s == "null"
  | _ => false

/-- The source's readiness test on a stream-url value:
`if stream_url and stream_url != "null"`. -/
def readyCond (u : JValue) : Bool :=
  u.truthy && !(isNullStr u)

/-- The dictionary built for a ready track by `wait_for_music`
(both in `voice_to_suno_jbl.py` and `suno_stream_player.py`). -/
structure Track where
  title : JValue
  stream_url : JValue
  id : JValue
  tags : JValue
  duration : JValue

/-- Build the ready-track dictionary from a track dict `track`:
`title=track.get('title','Untitled')`, `stream_url=track.get('streamAudioUrl')`,
`id=track.get('id')`, `tags=track.get('tags','')`, `duration=track.get('duration')`. -/
def trackOfObj (kvs : List (String × JValue)) : Track :=
  { title := objGetD kvs "title" (.str "Untitled")
    stream_url := objGet kvs "streamAudioUrl"
    id := objGet kvs "id"
    tags := objGetD kvs "tags" (.str "")
    duration := objGet kvs "duration" }

/-- Model of `VoiceToSunoJBL.wait_for_music`, lines 352-364: the ready-track extraction.
`suno_data` that is not a list leaves `ready_tracks` empty; non-dict entries are
skipped by the `isinstance(track, dict)` guard; a track joins the result iff
`stream_url and stream_url != "null"`. -/
def extractReady : JValue → List Track
  | .arr tracks =>
      tracks.filterMap fun t =>
        match t with
        | .obj kvs =>
            if readyCond (objGet kvs "streamAudioUrl") then some (trackOfObj kvs) else none
        | _ => none
  | _ => []

/-- Whether a payload entry passes the voice poller's readiness filter. -/
def isReadyTrack : JValue → Bool
  | .obj kvs => readyCond (objGet kvs "streamAudioUrl")
  | _ => false

/-- The `Track` a payload entry is converted into (junk on non-dicts, which the
filter excludes anyway). -/
def trackOf : JValue → Track
  | .obj kvs => trackOfObj kvs
  | _ => trackOfObj []

/-- Outcome of processing one successfully fetched status body inside the poll loop
of `VoiceToSunoJBL.wait_for_music`. The four cases correspond to the four distinct
exit/continue points of the loop body: the `SENSITIVE_WORD_ERROR` early return,
the `FAILED` early return, the `return ready_tracks` success return, and the
fallthrough (`continue` / no return) that leads to another poll. -/
inductive PollStep where
  | rejected (msg : JValue)
  | failedGen (msg : JValue)
  | ready (tracks : List Track)
  | pending

/-- Model of `VoiceToSunoJBL.wait_for_music`, lines 325-368: processing of one parsed poll
body `result`. Mirrors the source statement by statement:
`result.get('code') == 200`; `data = result.get('data', {})`;
`status = data.get('status')` (raises when `data` is not a dict);
the `SENSITIVE_WORD_ERROR` and `FAILED` branches with their logged
`data.get('errorMessage', ...)` defaults; `response_data = data.get('response')`
with the `is None` pending guard; the `isinstance(response_data, dict)` guard for
`sunoData`; and finally the ready-track extraction. -/
def processPayload (result : JValue) : Except Unit PollStep :=
  match pyGet result "code" with
  | .error e => .error e
  | .ok code =>
    if isNum code 200 then
      match pyGetD result "data" (.obj []) with
      | .error e => .error e
      | .ok data =>
        match pyGet data "status" with
        | .error e => .error e
        | .ok status =>
          if isStr status "SENSITIVE_WORD_ERROR" then
            match pyGetD data "errorMessage" (.str "Please rephrase your prompt") with
            | .error e => .error e
            | .ok m => .ok (.rejected m)
          else if isStr status "FAILED" then
            match pyGetD data "errorMessage" (.str "Unknown error") with
            | .error e => .error e
            | .ok m => .ok (.failedGen m)
          else
            match pyGet data "response" with
            | .error e => .error e
            | .ok response_data =>
              if isNone response_data then .ok .pending
              else
                let suno_data :=
                  match response_data with
                  | .obj kvs => objGet kvs "sunoData"
                  | _ => .null
                if isNone suno_data then .ok .pending
                else
                  let ready_tracks := extractReady suno_data
                  if ready_tracks.isEmpty then .ok .pending else .ok (.ready ready_tracks)
    else .ok .pending

/-- One full poll cycle of `wait_for_music`: the fetch (`session.get`,
`raise_for_status`, `.json()`) followed by body processing, the whole cycle wrapped
in the source's `try/except` which logs any exception and continues — so a raising
cycle behaves like a pending one. -/
def pollAttempt (fetch : Nat → Except Unit JValue) (n : Nat) : PollStep :=
  match fetch n with
  | .error _ => .pending
  | .ok p =>
    match processPayload p with
    | .error _ => .pending
    | .ok s => s

/-- Which distinct exit point of `wait_for_music` ended the wait. `timedOut`
is the loop running out of attempts (the source logs a timeout warning at
`attempt == max_attempts` and breaks). -/
inductive FinalState where
  | ready (tracks : List Track)
  | rejected (msg : JValue)
  | failedGen (msg : JValue)
  | timedOut

/-- The poll loop of `wait_for_music` with `r` attempts remaining, the next attempt
numbered `a`. Mirrors `for attempt in range(1, max_attempts + 1)` with the four
exit points of the body. -/
def waitAux (fetch : Nat → Except Unit JValue) : Nat → Nat → FinalState
  | 0, _ => .timedOut
  | r + 1, a =>
    match pollAttempt fetch a with
    | .rejected m => .rejected m
    | .failedGen m => .failedGen m
    | .ready ts => .ready ts
    | .pending => waitAux fetch r (a + 1)

/-- Model of `VoiceToSunoJBL.wait_for_music` run to its terminal outcome:
`max_attempts = 24` (the source's comment: 6 minutes at 15 s per poll), attempts
numbered from 1. -/
def wait_for_music_run (fetch : Nat → Except Unit JValue) : FinalState :=
  waitAux fetch 24 1

/-- The Python value `wait_for_music` actually returns at each exit point:
`ready_tracks` on success and `[]` on every other exit (both early `return []`
statements and the timeout fallthrough `return []`). -/
def finalValue : FinalState → List Track
  | .ready ts => ts
  | _ => []

/-- The list `VoiceToSunoJBL.wait_for_music` returns. -/
def wait_for_music (fetch : Nat → Except Unit JValue) : List Track :=
  finalValue (wait_for_music_run fetch)

/-- Number of poll cycles (hence status fetches) the loop executes before
returning, with `r` attempts remaining starting at attempt `a`. -/
def countAux (fetch : Nat → Except Unit JValue) : Nat → Nat → Nat
  | 0, _ => 0
  | r + 1, a =>
    match pollAttempt fetch a with
    | .pending => 1 + countAux fetch r (a + 1)
    | _ => 1

/-- Number of poll cycles `wait_for_music` executes. -/
def attemptsUsed (fetch : Nat → Except Unit JValue) : Nat :=
  countAux fetch 24 1

/-- The sequence of attempt numbers at which the loop issues its status GET, with
`r` attempts remaining starting at attempt `a`. Each loop iteration issues exactly
one `session.get`, so each executed attempt number appears exactly once. -/
def traceAux (fetch : Nat → Except Unit JValue) : Nat → Nat → List Nat
  | 0, _ => []
  | r + 1, a =>
    match pollAttempt fetch a with
    | .pending => a :: traceAux fetch r (a + 1)
    | _ => [a]

/-- The attempt numbers at which `wait_for_music` issues a status GET. -/
def waitTrace (fetch : Nat → Except Unit JValue) : List Nat :=
  traceAux fetch 24 1

/-- Consecutive naturals `a, a+1, ..., a+n-1`. -/
def consecFrom : Nat → Nat → List Nat
  | _, 0 => []
  | a, n + 1 => a :: consecFrom (a + 1) n

/-- Outcome of one `urllib.request.urlopen` attempt inside
`RobustSunoClient._make_request`: a 2xx response with a parsed JSON body, an
`HTTPError` with its code, a `URLError`/`OSError`/`ConnectionError`, or any other
exception (including a JSON decode failure). -/
inductive HttpAttempt where
  | success (statusCode : Nat) (body : JValue)
  | httpError (code : Nat) (err : String)
  | netError (err : String)
  | otherError (err : String)

/-- The dict `_make_request` returns: `success=True` with `status_code` and parsed
`data`, or `success=False` with `status_code` and `error`. -/
inductive MRResult where
  | ok (statusCode : Nat) (data : JValue)
  | fail (statusCode : Nat) (error : String)

/-- The codes `_make_request` retries on: `e.code in [429, 503, 504]`. -/
def retryableCode (c : Nat) : Bool :=
  c == 429 || c == 503 || c == 504

/-- Whether `_make_request` would retry after this first-attempt outcome (when
further attempts remain): retryable HTTP errors and all network errors. -/
def retryableAttempt : HttpAttempt → Bool
  | .httpError c _ => retryableCode c
  | .netError _ => true
  | _ => false

/-- Model of `RobustSunoClient._make_request`, lines 27-99, with `fuel` attempts remaining
out of `max_retries = 3`, the next attempt indexed `i` (so retry is allowed,
`attempt < max_retries - 1`, exactly when `fuel ≥ 2`). Returns the result dict and
the number of HTTP requests issued. The `fuel = 0` case is the post-loop
`return {'success': False, ...}`, which is unreachable from `fuel = 3` because the
last attempt always returns. -/
def makeRequestAux (att : Nat → HttpAttempt) : Nat → Nat → MRResult × Nat
  | 0, _ => (.fail 0 "Failed after 3 attempts", 0)
  | 1, i =>
    (match att i with
     | .success s b => .ok s b
     | .httpError c e => .fail c e
     | .netError e => .fail 0 ("Network error: " ++ e)
     | .otherError e => .fail 0 ("Unexpected error: " ++ e), 1)
  | fuel + 2, i =>
    match att i with
    | .success s b => (.ok s b, 1)
    | .httpError c e =>
      if retryableCode c then
        let p := makeRequestAux att (fuel + 1) (i + 1)
        (p.1, p.2 + 1)
      else (.fail c e, 1)
    | .netError _ =>
      let p := makeRequestAux att (fuel + 1) (i + 1)
      (p.1, p.2 + 1)
    | .otherError e => (.fail 0 ("Unexpected error: " ++ e), 1)

/-- Model of `_make_request` with its default `max_retries = 3`, as used by both
`generate_music` and `check_status`. -/
def makeRequest (att : Nat → HttpAttempt) : MRResult × Nat :=
  makeRequestAux att 3 0

/-- Number of HTTP GET requests one `RobustSunoClient.check_status` call issues
(its single `_make_request(endpoint, "GET")` call). -/
def check_status_requests (att : Nat → HttpAttempt) : Nat :=
  (makeRequest att).2

/-- Number of HTTP POST requests one `RobustSunoClient.generate_music` call issues
(its single `_make_request("/api/v1/generate", "POST", payload)` call). -/
def generate_music_requests (att : Nat → HttpAttempt) : Nat :=
  (makeRequest att).2

/-- Model of `RobustSunoClient.generate_music`, lines 101-124: the returned task id
(Python `None` is `.null`; the short-circuit `result['success'] and
result['data'].get('code') == 200` means no dict access happens on failure;
`result['data'].get('code')` raises — uncaught in this method — when the parsed
body is not a dict). -/
def robustGenerateMusic (att : Nat → HttpAttempt) : Except Unit JValue :=
  match (makeRequest att).1 with
  | .fail _ _ => .ok .null
  | .ok _ body =>
    match pyGet body "code" with
    | .error e => .error e
    | .ok code =>
      if isNum code 200 then
        match pyGetD body "data" (.obj []) with
        | .error e => .error e
        | .ok d => pyGet d "taskId"
      else .ok .null

/-- Model of `RobustSunoClient.check_status`, lines 126-138: the `data` field of the parsed
body on success with `code == 200`, `None` otherwise (with the same uncaught
raise when the parsed body is not a dict). -/
def robustCheckStatus (att : Nat → HttpAttempt) : Except Unit JValue :=
  match (makeRequest att).1 with
  | .fail _ _ => .ok .null
  | .ok _ body =>
    match pyGet body "code" with
    | .error e => .error e
    | .ok code =>
      if isNum code 200 then pyGetD body "data" (.obj [])
      else .ok .null

/-- Model of `RobustSunoClient.wait_for_completion`, lines 154-162: the shape dispatch on a
non-`None` `status_data` — a list is taken as the track list, a dict is wrapped as
a single-element list (both branches of the inner `if` produce `[status_data]`),
anything else leaves `tracks` empty. -/
def robustTracks : JValue → List JValue
  | .arr xs => xs
  | .obj kvs => [.obj kvs]
  | _ => []

/-- Model of `RobustSunoClient.wait_for_completion`, lines 165-174: the completed-track
filter. `track.get('audio_url')` raises on non-dict entries; a track is completed
iff its `audio_url` is truthy (no comparison against the string `"null"` here). -/
def robustCompleted : List JValue → Except Unit (List JValue)
  | [] => .ok []
  | t :: rest =>
    match pyGet t "audio_url" with
    | .error e => .error e
    | .ok audio_url =>
      match robustCompleted rest with
      | .error e => .error e
      | .ok acc => .ok (if audio_url.truthy then t :: acc else acc)

/-- The whole per-poll normalization of `RobustSunoClient.wait_for_completion`:
shape dispatch then completed filter. -/
def robustNormalize (status_data : JValue) : Except Unit (List JValue) :=
  robustCompleted (robustTracks status_data)

/-- Python iteration `for track in suno_data`: a list yields its elements, a string
its one-character substrings, a dict its keys; `None`, numbers and booleans raise
`TypeError`. -/
def iterElems : JValue → Except Unit (List JValue)
  | .arr xs => .ok xs
  | .str s => .ok (s.data.map fun c => .str (String.mk [c]))
  | .obj kvs => .ok (kvs.map fun kv => .str kv.fst)
  | _ => .error ()

/-- Model of `SunoStreamPlayer.wait_for_music`, lines 88-99: the ready-track loop. Unlike
the voice poller there is no `isinstance(track, dict)` guard, so
`track.get('streamAudioUrl')` raises on a non-dict element. -/
def spExtract : List JValue → Except Unit (List Track)
  | [] => .ok []
  | t :: rest =>
    match t with
    | .obj kvs =>
      match spExtract rest with
      | .error e => .error e
      | .ok acc =>
        .ok (if readyCond (objGet kvs "streamAudioUrl") then trackOfObj kvs :: acc else acc)
    | _ => .error ()

/-- Model of `SunoStreamPlayer.wait_for_music`, lines 83-103: processing of one parsed poll
body. `suno_data = data.get('response', {}).get('sunoData', [])` — the `.get`
defaults apply only to absent keys, so a present-but-`None` `response` makes the
second `.get` raise `AttributeError` (absorbed by the loop's `try/except`). -/
def streamPlayerProcess (result : JValue) : Except Unit PollStep :=
  match pyGet result "code" with
  | .error e => .error e
  | .ok code =>
    if isNum code 200 then
      match pyGetD result "data" (.obj []) with
      | .error e => .error e
      | .ok data =>
        match pyGetD data "response" (.obj []) with
        | .error e => .error e
        | .ok resp =>
          match pyGetD resp "sunoData" (.arr []) with
          | .error e => .error e
          | .ok suno_data =>
            match iterElems suno_data with
            | .error e => .error e
            | .ok items =>
              match spExtract items with
              | .error e => .error e
              | .ok ready_tracks =>
                if ready_tracks.isEmpty then .ok .pending else .ok (.ready ready_tracks)
    else .ok .pending

/-- Model of `VoiceToSunoJBL.generate_music`, lines 292-307: one `session.post` (modelled as
its single outcome `post`: the parsed body, or the exception `raise_for_status` /
transport / `.json()` raises), then the `code == 200` check and task-id lookup.
The enclosing `try/except` turns every exception into a logged `return None`, so
the method is total and returns `.null` on every failure. -/
def voiceGenerateMusic (post : Except Unit JValue) : JValue :=
  match post with
  | .error _ => .null
  | .ok result =>
    match (match pyGet result "code" with
           | .error e => .error e
           | .ok code =>
             if isNum code 200 then
               match pyGetD result "data" (.obj []) with
               | .error e => .error e
               | .ok d => pyGet d "taskId"
             else .ok .null : Except Unit JValue) with
    | .ok v => v
    | .error _ => .null

/-- Number of HTTP POST requests one `VoiceToSunoJBL.generate_music` call issues:
the method body contains a single `session.post` and no retry loop. -/
def voice_generate_music_requests : Nat := 1

/-- Source comment in `wait_for_music`: `max_attempts = 24  # 6 minutes total`. -/
def poll_interval_s : Nat := 15

/-- Total wall-clock wait budget of `wait_for_music`: 6 minutes. -/
def max_wait_s : Nat := 360

/-- A track dict as in the spec's happy-path scenario. -/
def songTrackKVs : List (String × JValue) :=
  [("id", .str "t1"), ("title", .str "Song A"), ("streamAudioUrl", .str "https://x/a.mp3")]

/-- A track dict whose ready field is the remote service's other convention,
`audio_url` (spec shape (b)). -/
def audioTrackKVs : List (String × JValue) :=
  [("id", .str "t1"), ("title", .str "Song A"), ("audio_url", .str "https://x/a.mp3")]

/-- A status body in spec shape (c): the track list nested under
`response.sunoData`. -/
def shapeCPayload : JValue :=
  .obj [("code", .num 200),
        ("data", .obj [("status", .str "SUCCESS"),
                       ("response", .obj [("sunoData", .arr [.obj songTrackKVs])])])]

/-- A status body whose `data` is spec shape (d): a bare list of track dicts. -/
def shapeDPayload : JValue :=
  .obj [("code", .num 200), ("data", .arr [.obj songTrackKVs])]

/-- A content-policy rejection body. -/
def rejectedPayload : JValue :=
  .obj [("code", .num 200),
        ("data", .obj [("status", .str "SENSITIVE_WORD_ERROR"),
                       ("errorMessage", .str "flagged")])]

/-- A generic failure body with no `errorMessage`. -/
def failedPayload : JValue :=
  .obj [("code", .num 200), ("data", .obj [("status", .str "FAILED")])]

/-- A still-pending body (spec shape (a): explicit `null` response). -/
def pendingPayload : JValue :=
  .obj [("code", .num 200),
        ("data", .obj [("status", .str "PENDING"), ("response", .null)])]

/-- The spec's sentinel scenario: the only track carries the literal string
`"null"` as its stream URL. -/
def nullUrlPayload : JValue :=
  .obj [("code", .num 200),
        ("data", .obj [("status", .str "SUCCESS"),
                       ("response", .obj [("sunoData",
                         .arr [.obj [("id", .str "t1"), ("streamAudioUrl", .str "null")]])])])]

/-- A fetch sequence that always reports the content-policy rejection. -/
def rejFetch : Nat → Except Unit JValue := fun _ => .ok rejectedPayload

/-- A fetch sequence that always reports the generic failure. -/
def failFetch : Nat → Except Unit JValue := fun _ => .ok failedPayload

/-- A fetch sequence that is always still pending. -/
def pendFetch : Nat → Except Unit JValue := fun _ => .ok pendingPayload

/-- A fetch sequence whose first poll fails at transport level and whose later
polls return a ready track set. -/
def flakyFetch : Nat → Except Unit JValue :=
  fun n => if n == 1 then .error () else .ok shapeCPayload

/-- A `_make_request` attempt sequence in which every `urlopen` raises a network
error. -/
def allNetErrors : Nat → HttpAttempt := fun _ => .netError "timed out"

/-- A `_make_request` attempt sequence in which every `urlopen` raises
`HTTPError 503`. -/
def all503 : Nat → HttpAttempt := fun _ => .httpError 503 "Service Unavailable"

/-- A track dict whose stream URL is present (the key maps to a non-`None` value)
and is not the literal `"null"`, but is the empty string. -/
def emptyUrlTrackKVs : List (String × JValue) :=
  [("id", .str "t1"), ("streamAudioUrl", .str "")]

/-- A track dict whose stream URL is the sentinel string `"null"`. -/
def nullTrackKVs : List (String × JValue) :=
  [("id", .str "t2"), ("streamAudioUrl", .str "null")]

/-- A `data` dict holding one ready track and one not-yet-ready sibling. -/
def mixedDataKVs : List (String × JValue) :=
  [("status", .str "SUCCESS"),
   ("response", .obj [("sunoData", .arr [.obj songTrackKVs, .obj nullTrackKVs])])]

/-- A fetch sequence always returning the mixed ready/not-ready payload. -/
def mixedFetch : Nat → Except Unit JValue :=
  fun _ => .ok (.obj [("code", .num 200), ("data", .obj mixedDataKVs)])

/-- A `data` dict carrying both the content-policy status and a ready track list
(to exhibit that the status check preempts extraction). -/
def rejDataKVs : List (String × JValue) :=
  [("status", .str "SENSITIVE_WORD_ERROR"), ("errorMessage", .str "flagged"),
   ("response", .obj [("sunoData", .arr [.obj songTrackKVs])])]

/-- A fetch sequence always returning the rejection-with-ready-tracks payload. -/
def rejReadyFetch : Nat → Except Unit JValue :=
  fun _ => .ok (.obj [("code", .num 200), ("data", .obj rejDataKVs)])

/-- A status body whose `data.response` key is present but holds an explicit
JSON `null`. -/
def nullResponsePayload : JValue :=
  .obj [("code", .num 200), ("data", .obj [("response", .null)])]

/-- A `_make_request` attempt sequence whose first `urlopen` yields
`HTTPError 400` (not a retryable code). -/
def badRequestAttempts : Nat → HttpAttempt := fun _ => .httpError 400 "Bad Request"

/-- A `_make_request` attempt sequence whose first `urlopen` succeeds with a
well-formed creation body. -/
def successAttempts : Nat → HttpAttempt :=
  fun _ => .success 200 (.obj [("code", .num 200), ("data", .obj [("taskId", .str "abc123")])])

/-- The voice extraction is the order-preserving ready filter of the payload
list: each entry is kept iff it passes `isReadyTrack`, and kept entries are
converted in payload order. -/
theorem extractReady_eq_filter (xs : List JValue) :
    extractReady (.arr xs) = (xs.filter isReadyTrack).map trackOf := by
  induction xs with
  | nil => rfl
  | cons x rest ih =>
    cases x with
    | obj kvs =>
      by_cases h : readyCond (objGet kvs "streamAudioUrl") = true
      · simp [extractReady, List.filterMap_cons, List.filter_cons, isReadyTrack, h, trackOf] at ih ⊢
        exact ih
      · simp [extractReady, List.filterMap_cons, List.filter_cons, isReadyTrack,
              Bool.of_not_eq_true h] at ih ⊢
        exact ih
    | null => simpa [extractReady, List.filterMap_cons, List.filter_cons, isReadyTrack] using ih
    | bool b => simpa [extractReady, List.filterMap_cons, List.filter_cons, isReadyTrack] using ih
    | num n => simpa [extractReady, List.filterMap_cons, List.filter_cons, isReadyTrack] using ih
    | str s => simpa [extractReady, List.filterMap_cons, List.filter_cons, isReadyTrack] using ih
    | arr ys => simpa [extractReady, List.filterMap_cons, List.filter_cons, isReadyTrack] using ih

/-- A poll loop whose next `r` attempts are all pending times out after exactly
those `r` further fetches. -/
theorem waitAux_pending_timedOut (fetch : Nat → Except Unit JValue) :
    ∀ (r a : Nat), (∀ n, a ≤ n → n < a + r → pollAttempt fetch n = .pending) →
      waitAux fetch r a = .timedOut ∧ countAux fetch r a = r
  | 0, _, _ => ⟨rfl, rfl⟩
  | r + 1, a, h => by
    have ha : pollAttempt fetch a = .pending := h a le_rfl (by omega)
    have ih := waitAux_pending_timedOut fetch r (a + 1)
      (fun n h1 h2 => h n (by omega) (by omega))
    refine ⟨?_, ?_⟩
    · simp [waitAux, ha, ih.1]
    · simp [countAux, ha, ih.2]
      omega

/-- Each executed poll cycle issues exactly one status GET: the GET trace is the
consecutive block of attempt numbers of the executed cycles. -/
theorem traceAux_consec (fetch : Nat → Except Unit JValue) :
    ∀ (r a : Nat), traceAux fetch r a = consecFrom a (countAux fetch r a)
  | 0, _ => rfl
  | r + 1, a => by
    have ih := traceAux_consec fetch r (a + 1)
    cases h : pollAttempt fetch a with
    | pending =>
      have : 1 + countAux fetch r (a + 1) = countAux fetch r (a + 1) + 1 := by omega
      simp [traceAux, countAux, h, ih, this, consecFrom]
    | rejected m => simp [traceAux, countAux, h, consecFrom]
    | failedGen m => simp [traceAux, countAux, h, consecFrom]
    | ready ts => simp [traceAux, countAux, h, consecFrom]

/-- Request-count bounds for `_make_request`: with positive fuel it issues at
least one and at most `fuel` HTTP requests. -/
theorem makeRequestAux_count_bounds (att : Nat → HttpAttempt) :
    ∀ (fuel i : Nat), 1 ≤ fuel →
      1 ≤ (makeRequestAux att fuel i).2 ∧ (makeRequestAux att fuel i).2 ≤ fuel
  | 0, _, h => absurd h (by omega)
  | 1, i, _ => by simp [makeRequestAux]
  | fuel + 2, i, _ => by
    have ih := makeRequestAux_count_bounds att (fuel + 1) (i + 1) (by omega)
    cases h : att i with
    | success s b => simp [makeRequestAux, h]
    | httpError c e =>
      by_cases hc : retryableCode c = true
      · simp [makeRequestAux, h, hc]
        omega
      · simp [makeRequestAux, h, Bool.of_not_eq_true hc]
    | netError e =>
      simp [makeRequestAux, h]
      omega
    | otherError e => simp [makeRequestAux, h]

/-- A pending prefix of `k` polls is skipped: the loop proceeds to attempt
`a + k` with `k` fewer remaining attempts, having issued `k` more fetches. -/
theorem waitAux_skip (fetch : Nat → Except Unit JValue) :
    ∀ (k r a : Nat), (∀ m, a ≤ m → m < a + k → pollAttempt fetch m = .pending) →
      waitAux fetch (r + k) a = waitAux fetch r (a + k)
      ∧ countAux fetch (r + k) a = k + countAux fetch r (a + k)
  | 0, r, a, _ => by simp
  | k + 1, r, a, h => by
    have ha : pollAttempt fetch a = .pending := h a le_rfl (by omega)
    have ih := waitAux_skip fetch k r (a + 1) (fun m h1 h2 => h m (by omega) (by omega))
    have hr : r + (k + 1) = (r + k) + 1 := by omega
    have ha1 : a + 1 + k = a + (k + 1) := by omega
    constructor
    · rw [hr]
      simp only [waitAux, ha]
      rw [ih.1, ha1]
    · rw [hr]
      simp only [countAux, ha]
      rw [ih.2, ha1]
      omega

/-- C1 counterexample: a valid non-"null" stream URL wrapped in shape (c)
(nested `response.sunoData`) versus the same track as shape (d) (a bare list as
the `data` value). The voice poller extracts the track from shape (c) but for
shape (d) it raises (an `AttributeError` at `data.get('status')`, absorbed
upstream) instead of falling through — it does not extract the same track list,
and it does not attempt shapes (c), (d), (b) in order. `RobustSunoClient`
likewise disagrees across shapes: its normalization finds nothing in the
shape (c) wrapper (it looks only for a top-level `audio_url`) yet extracts the
track from the bare-list shape (d). -/
theorem C1_counterexample :
    processPayload shapeCPayload = .ok (.ready [trackOfObj songTrackKVs])
    ∧ processPayload shapeDPayload = .error ()
    ∧ robustNormalize (.obj [("response", .obj [("sunoData", .arr [.obj audioTrackKVs])])])
        = .ok []
    ∧ robustNormalize (.arr [.obj audioTrackKVs]) = .ok [.obj audioTrackKVs] :=
  ⟨rfl, rfl, rfl, rfl⟩

/-- C1 (amended): no single normalization attempts shapes (c), (d), (b) in order.
Instead, the voice poller (`VoiceToSunoJBL.wait_for_music`) handles exactly
shape (c) — extracting any track whose `streamAudioUrl` is a non-empty,
non-"null" string — and treats the explicit-`null` response of shape (a) as
pending; shapes (d) and (b) are handled only by
`RobustSunoClient.wait_for_completion`, which resolves readiness through the
`audio_url` field (a bare list is taken as the track list, a mapping is wrapped
as a single-element list). -/
theorem C1_amended (kvs : List (String × JValue)) (u : String)
    (hurl : objGet kvs "streamAudioUrl" = .str u)
    (hne : (u == "") = false) (hnn : (u == "null") = false) :
    processPayload (.obj [("code", .num 200),
        ("data", .obj [("status", .str "SUCCESS"),
          ("response", .obj [("sunoData", .arr [.obj kvs])])])])
      = .ok (.ready [trackOfObj kvs])
    ∧ processPayload pendingPayload = .ok .pending
    ∧ (∀ akvs : List (String × JValue), objGet akvs "audio_url" = .str u →
        robustNormalize (.arr [.obj akvs]) = .ok [.obj akvs]
        ∧ robustNormalize (.obj akvs) = .ok [.obj akvs]) := by
  have hready : readyCond (.str u) = true := by
    simp [readyCond, JValue.truthy, isNullStr, bne, hne, hnn]
  refine ⟨?_, rfl, ?_⟩
  · have hurl' : (match lookupKV kvs "streamAudioUrl" with
        | some v => v | none => JValue.null) = JValue.str u := hurl
    simp [processPayload, pyGet, pyGetD, objGetD, objGet, lookupKV, isNum, isStr, isNone,
          extractReady, hurl', hready, trackOfObj]
  · intro akvs hak
    have htr : (objGetD akvs "audio_url" JValue.null).truthy = true := by
      have hak' : objGetD akvs "audio_url" JValue.null = JValue.str u := hak
      simp [hak', JValue.truthy, bne, hne]
    constructor
    · simp [robustNormalize, robustTracks, robustCompleted, pyGet, pyGetD, htr]
    · simp [robustNormalize, robustTracks, robustCompleted, pyGet, pyGetD, htr]

/-- C1 amended, instantiated: the spec's happy-path track in shape (c) for the
voice poller and in shapes (d)/(b) for the robust client. -/
theorem C1_amended_witness :
    processPayload (.obj [("code", .num 200),
        ("data", .obj [("status", .str "SUCCESS"),
          ("response", .obj [("sunoData", .arr [.obj songTrackKVs])])])])
      = .ok (.ready [trackOfObj songTrackKVs])
    ∧ processPayload pendingPayload = .ok .pending
    ∧ robustNormalize (.arr [.obj audioTrackKVs]) = .ok [.obj audioTrackKVs]
    ∧ robustNormalize (.obj audioTrackKVs) = .ok [.obj audioTrackKVs] := by
  have h := C1_amended songTrackKVs "https://x/a.mp3" rfl rfl rfl
  exact ⟨h.1, h.2.1, (h.2.2 audioTrackKVs rfl).1, (h.2.2 audioTrackKVs rfl).2⟩

/-- C2 counterexample: the three non-success outcomes are reached as distinct
exit points (`REJECTED`, `FAILED`, `TIMED_OUT`) but `wait_for_music` returns the
very same value — the empty list — for all of them, so the returned final state
does not distinguish content rejection, generic failure and timeout (the caller
`run_voice_session` indeed announces "timed out" for any empty result). -/
theorem C2_counterexample :
    wait_for_music rejFetch = wait_for_music pendFetch
    ∧ wait_for_music failFetch = wait_for_music pendFetch
    ∧ wait_for_music_run rejFetch = .rejected (.str "flagged")
    ∧ wait_for_music_run failFetch = .failedGen (.str "Unknown error")
    ∧ wait_for_music_run pendFetch = .timedOut :=
  ⟨rfl, rfl, rfl, rfl, rfl⟩

/-- C2 (amended): the REJECTED, FAILED and TIMED_OUT outcomes indeed never
surface as raised exceptions — `wait_for_music` always returns normally — but
they are not distinguishable in the returned value: all three exit points return
the same empty track list, the outcomes being told apart only in the logged
output. -/
theorem C2_amended (fetch : Nat → Except Unit JValue) (m : JValue) :
    (wait_for_music_run fetch = .rejected m → wait_for_music fetch = [])
    ∧ (wait_for_music_run fetch = .failedGen m → wait_for_music fetch = [])
    ∧ (wait_for_music_run fetch = .timedOut → wait_for_music fetch = []) := by
  refine ⟨?_, ?_, ?_⟩ <;> intro h <;> simp [wait_for_music, h, finalValue]

/-- C2 amended, instantiated at the always-rejecting fetch sequence. -/
theorem C2_amended_witness : wait_for_music rejFetch = [] :=
  (C2_amended rejFetch (.str "flagged")).1 rfl

/-- C3 counterexample: a track whose `streamAudioUrl` key is present (it maps to
an actual string, not `None`) and differs from the literal `"null"`, yet the
track is excluded from the ready set, because the source's check
`if stream_url and stream_url != "null"` requires Python truthiness and the
empty string is falsy. -/
theorem C3_counterexample :
    lookupKV emptyUrlTrackKVs "streamAudioUrl" = some (.str "")
    ∧ ((("" : String) == "null") = false)
    ∧ extractReady (.arr [.obj emptyUrlTrackKVs]) = [] :=
  ⟨rfl, rfl, rfl⟩

/-- C3 (amended): a track is included in the ready result set iff its resolved
stream URL field is truthy (present, non-`None` and non-empty) and not equal to
the literal string `"null"`; in particular a payload whose only track carries
`streamAudioUrl == "null"` yields zero ready tracks, the poll stays pending, and
the poller keeps polling to its attempt ceiling instead of declaring readiness. -/
theorem C3_amended (kvs : List (String × JValue)) :
    extractReady (.arr [.obj kvs])
      = (if readyCond (objGet kvs "streamAudioUrl") then [trackOfObj kvs] else [])
    ∧ processPayload nullUrlPayload = .ok .pending
    ∧ wait_for_music_run (fun _ => .ok nullUrlPayload) = .timedOut
    ∧ attemptsUsed (fun _ => .ok nullUrlPayload) = 24 := by
  refine ⟨?_, rfl, rfl, rfl⟩
  by_cases h : readyCond (objGet kvs "streamAudioUrl") = true
  · simp [extractReady, List.filterMap, h]
  · simp [extractReady, List.filterMap, Bool.of_not_eq_true h]

/-- One loop step on a rejecting poll: the loop returns at once. -/
theorem waitAux_rejected (fetch : Nat → Except Unit JValue) (r a : Nat) (m : JValue)
    (h : pollAttempt fetch a = .rejected m) :
    waitAux fetch (r + 1) a = .rejected m := by
  simp [waitAux, h]

/-- One loop step on a ready poll: the loop returns at once. -/
theorem waitAux_ready (fetch : Nat → Except Unit JValue) (r a : Nat) (ts : List Track)
    (h : pollAttempt fetch a = .ready ts) :
    waitAux fetch (r + 1) a = .ready ts := by
  simp [waitAux, h]

/-- One loop step on a pending poll: the loop continues. -/
theorem waitAux_pendingStep (fetch : Nat → Except Unit JValue) (r a : Nat)
    (h : pollAttempt fetch a = .pending) :
    waitAux fetch (r + 1) a = waitAux fetch r (a + 1) := by
  simp [waitAux, h]

/-- Fetch count of a loop that returns on a rejecting poll. -/
theorem countAux_rejected (fetch : Nat → Except Unit JValue) (r a : Nat) (m : JValue)
    (h : pollAttempt fetch a = .rejected m) :
    countAux fetch (r + 1) a = 1 := by
  simp [countAux, h]

/-- Fetch count of a loop that returns on a ready poll. -/
theorem countAux_ready (fetch : Nat → Except Unit JValue) (r a : Nat) (ts : List Track)
    (h : pollAttempt fetch a = .ready ts) :
    countAux fetch (r + 1) a = 1 := by
  simp [countAux, h]

/-- Fetch count of a loop that continues past a pending poll. -/
theorem countAux_pendingStep (fetch : Nat → Except Unit JValue) (r a : Nat)
    (h : pollAttempt fetch a = .pending) :
    countAux fetch (r + 1) a = 1 + countAux fetch r (a + 1) := by
  simp [countAux, h]

/-- C4: a payload whose `status` is the content-policy sentinel
`SENSITIVE_WORD_ERROR` drives the poll to the REJECTED exit within that single
poll, carrying the service-supplied `errorMessage`; the loop returns right
there (exactly one fetch is issued, so no further poll happens and nothing
leaves the terminal outcome), and the branch fires before track extraction, so
the rejection is reached regardless of any ready tracks sitting in the same
payload (the general `dkvs` may contain them). -/
theorem C4_rejected_terminal (dkvs : List (String × JValue)) (m : JValue)
    (fetch : Nat → Except Unit JValue)
    (hstatus : objGet dkvs "status" = .str "SENSITIVE_WORD_ERROR")
    (hmsg : lookupKV dkvs "errorMessage" = some m)
    (hf : fetch 1 = .ok (.obj [("code", .num 200), ("data", .obj dkvs)])) :
    processPayload (.obj [("code", .num 200), ("data", .obj dkvs)]) = .ok (.rejected m)
    ∧ wait_for_music_run fetch = .rejected m
    ∧ attemptsUsed fetch = 1 := by
  have hstatus' : (match lookupKV dkvs "status" with
      | some v => v | none => JValue.null) = JValue.str "SENSITIVE_WORD_ERROR" := hstatus
  have hp : processPayload (.obj [("code", .num 200), ("data", .obj dkvs)])
      = .ok (.rejected m) := by
    simp [processPayload, pyGet, pyGetD, objGetD, objGet, lookupKV, isNum, isStr,
          hstatus', hmsg]
  have h1 : pollAttempt fetch 1 = .rejected m := by
    simp [pollAttempt, hf, hp]
  exact ⟨hp, waitAux_rejected fetch 23 1 m h1, countAux_rejected fetch 23 1 m h1⟩

/-- C4, instantiated: the rejecting payload even carries a ready track list,
and the poller still rejects in one poll without extracting it. -/
theorem C4_rejected_terminal_witness :
    processPayload (.obj [("code", .num 200), ("data", .obj rejDataKVs)])
      = .ok (.rejected (.str "flagged"))
    ∧ wait_for_music_run rejReadyFetch = .rejected (.str "flagged")
    ∧ attemptsUsed rejReadyFetch = 1 :=
  C4_rejected_terminal rejDataKVs (.str "flagged") rejReadyFetch rfl rfl rfl

/-- C5: if the fetcher always returns successfully but every poll body processes
to the pending fallthrough (no terminal status, no extractable ready track), the
wait terminates: it stops after exactly `max_wait / poll_interval = 360 s / 15 s
= 24` polls at the TIMED_OUT exit — it does not stay pending forever. -/
theorem C5_timeout (fetch : Nat → Except Unit JValue)
    (h : ∀ n, 1 ≤ n → n ≤ 24 → ∃ p, fetch n = .ok p ∧ processPayload p = .ok .pending) :
    wait_for_music_run fetch = .timedOut
    ∧ attemptsUsed fetch = max_wait_s / poll_interval_s
    ∧ max_wait_s / poll_interval_s = 24 := by
  have hp : ∀ n, 1 ≤ n → n < 1 + 24 → pollAttempt fetch n = .pending := by
    intro n h1 h2
    obtain ⟨p, hfp, hpp⟩ := h n h1 (by omega)
    simp [pollAttempt, hfp, hpp]
  have := waitAux_pending_timedOut fetch 24 1 hp
  exact ⟨this.1, this.2, rfl⟩

/-- C5, instantiated at the always-pending fetch sequence. -/
theorem C5_timeout_witness :
    wait_for_music_run pendFetch = .timedOut
    ∧ attemptsUsed pendFetch = max_wait_s / poll_interval_s :=
  ⟨(C5_timeout pendFetch (fun _ _ _ => ⟨pendingPayload, rfl, rfl⟩)).1,
   (C5_timeout pendFetch (fun _ _ _ => ⟨pendingPayload, rfl, rfl⟩)).2.1⟩

/-- C6: a transport-level failure of an individual poll is absorbed as a missed
tick (first conjunct: any erroring fetch makes that cycle pending, for every
fetch sequence and position), and in particular when poll 1 fails at transport
level and poll 2 processes to a ready track set, the wait reaches READY with
poll 2's tracks after exactly two fetches — the failed poll does not abort the
wait. -/
theorem C6_transient_absorbed (fetch : Nat → Except Unit JValue) (p2 : JValue)
    (ts : List Track)
    (h1 : fetch 1 = .error ())
    (h2 : fetch 2 = .ok p2)
    (hp : processPayload p2 = .ok (.ready ts)) :
    (∀ (g : Nat → Except Unit JValue) (n : Nat), g n = .error () →
      pollAttempt g n = .pending)
    ∧ wait_for_music_run fetch = .ready ts
    ∧ wait_for_music fetch = ts
    ∧ attemptsUsed fetch = 2 := by
  have habs : ∀ (g : Nat → Except Unit JValue) (n : Nat), g n = .error () →
      pollAttempt g n = .pending := by
    intro g n hg
    simp [pollAttempt, hg]
  have hpoll1 : pollAttempt fetch 1 = .pending := habs fetch 1 h1
  have hpoll2 : pollAttempt fetch 2 = .ready ts := by
    simp [pollAttempt, h2, hp]
  have hrun : wait_for_music_run fetch = .ready ts := by
    show waitAux fetch 24 1 = .ready ts
    rw [waitAux_pendingStep fetch 23 1 hpoll1]
    exact waitAux_ready fetch 22 2 ts hpoll2
  refine ⟨habs, hrun, ?_, ?_⟩
  · simp [wait_for_music, wait_for_music_run] at hrun ⊢
    simp [hrun, finalValue]
  · show countAux fetch 24 1 = 2
    rw [countAux_pendingStep fetch 23 1 hpoll1, countAux_ready fetch 22 2 ts hpoll2]

/-- C6, instantiated: first poll errors, later polls return the shape (c)
payload with one ready track. -/
theorem C6_transient_absorbed_witness :
    wait_for_music_run flakyFetch = .ready [trackOfObj songTrackKVs]
    ∧ wait_for_music flakyFetch = [trackOfObj songTrackKVs]
    ∧ attemptsUsed flakyFetch = 2 := by
  have h := C6_transient_absorbed flakyFetch shapeCPayload [trackOfObj songTrackKVs]
    rfl rfl rfl
  exact ⟨h.2.1, h.2.2.1, h.2.2.2⟩

/-- C7 counterexample: a poll cycle of `RobustSunoClient` (one `check_status`
call) performs three HTTP GETs, not exactly one, when the transport keeps
failing — `_make_request` retries internally with `max_retries = 3`. -/
theorem C7_counterexample :
    check_status_requests allNetErrors = 3 ∧ (3 : Nat) ≠ 1 :=
  ⟨rfl, by decide⟩

/-- C7 (amended): the voice poller does issue exactly one status GET per
executed poll cycle (its GET trace is precisely the consecutive block of
executed attempt numbers, one GET each); `RobustSunoClient.check_status`,
however, issues between 1 and 3 GETs per cycle — exactly one precisely when the
first attempt's outcome is not retryable (a success, a non-429/503/504 HTTP
error, or an unexpected error), up to three otherwise. Never zero in either
client. -/
theorem C7_amended (att att2 : Nat → HttpAttempt) (fetch : Nat → Except Unit JValue)
    (h : retryableAttempt (att 0) = false) :
    check_status_requests att = 1
    ∧ 1 ≤ check_status_requests att2 ∧ check_status_requests att2 ≤ 3
    ∧ waitTrace fetch = consecFrom 1 (attemptsUsed fetch) := by
  refine ⟨?_, ?_, ?_, ?_⟩
  · show (makeRequestAux att 3 0).2 = 1
    cases ha : att 0 with
    | success s b => simp [makeRequestAux, ha]
    | httpError c e =>
      have hc : retryableCode c = false := by simpa [retryableAttempt, ha] using h
      simp [makeRequestAux, ha, hc]
    | netError e => simp [retryableAttempt, ha] at h
    | otherError e => simp [makeRequestAux, ha]
  · exact (makeRequestAux_count_bounds att2 3 0 (by omega)).1
  · exact (makeRequestAux_count_bounds att2 3 0 (by omega)).2
  · exact traceAux_consec fetch 24 1

/-- C7 amended, instantiated: a non-retryable HTTP 400 first attempt gives
exactly one GET; the all-network-error sequence stays within the 1..3 bound;
the always-pending voice wait issues its 24 GETs one per cycle. -/
theorem C7_amended_witness :
    check_status_requests badRequestAttempts = 1
    ∧ 1 ≤ check_status_requests allNetErrors ∧ check_status_requests allNetErrors ≤ 3
    ∧ waitTrace pendFetch = consecFrom 1 (attemptsUsed pendFetch) :=
  C7_amended badRequestAttempts allNetErrors pendFetch rfl

/-- C8 counterexample: one `RobustSunoClient.generate_music` call performs the
creation POST three times, not exactly once, when the service keeps answering
HTTP 503 — `_make_request` retries the POST at this layer. -/
theorem C8_counterexample :
    generate_music_requests all503 = 3 ∧ (3 : Nat) ≠ 1 :=
  ⟨rfl, by decide⟩

/-- C8 (amended): `VoiceToSunoJBL.generate_music` performs its POST exactly once
and surfaces failure to the caller as a `None` task id (not an exception): it
returns `None` on a transport error / non-2xx (the raised exception is caught)
and on a body whose `code` is not 200. `RobustSunoClient.generate_music`,
however, retries the POST: it issues between 1 and 3 POSTs — exactly one when
the first attempt's outcome is not retryable — and likewise returns `None`
(never raises a `SubmissionError`) when `_make_request` reports failure. -/
theorem C8_amended (att att2 : Nat → HttpAttempt) (rkvs : List (String × JValue))
    (c : Nat) (s : String)
    (h : retryableAttempt (att 0) = false)
    (hfail : (makeRequest att2).1 = .fail c s)
    (hcode : isNum (objGet rkvs "code") 200 = false) :
    generate_music_requests att = 1
    ∧ 1 ≤ generate_music_requests att2 ∧ generate_music_requests att2 ≤ 3
    ∧ voice_generate_music_requests = 1
    ∧ voiceGenerateMusic (.error ()) = .null
    ∧ voiceGenerateMusic (.ok (.obj rkvs)) = .null
    ∧ robustGenerateMusic att2 = .ok .null := by
  refine ⟨?_, ?_, ?_, rfl, rfl, ?_, ?_⟩
  · show (makeRequestAux att 3 0).2 = 1
    cases ha : att 0 with
    | success s b => simp [makeRequestAux, ha]
    | httpError c e =>
      have hc : retryableCode c = false := by simpa [retryableAttempt, ha] using h
      simp [makeRequestAux, ha, hc]
    | netError e => simp [retryableAttempt, ha] at h
    | otherError e => simp [makeRequestAux, ha]
  · exact (makeRequestAux_count_bounds att2 3 0 (by omega)).1
  · exact (makeRequestAux_count_bounds att2 3 0 (by omega)).2
  · have hcode' : isNum (objGetD rkvs "code" JValue.null) 200 = false := hcode
    simp [voiceGenerateMusic, pyGet, pyGetD, hcode']
  · simp [robustGenerateMusic, hfail]

/-- C8 amended, instantiated: a clean 200 first attempt posts exactly once; the
all-503 sequence stays within 1..3 POSTs and returns `None`; the voice client
returns `None` on an exception and on a `code`-500 body. -/
theorem C8_amended_witness :
    generate_music_requests successAttempts = 1
    ∧ 1 ≤ generate_music_requests all503 ∧ generate_music_requests all503 ≤ 3
    ∧ voice_generate_music_requests = 1
    ∧ voiceGenerateMusic (.error ()) = .null
    ∧ voiceGenerateMusic (.ok (.obj [("code", .num 500)])) = .null
    ∧ robustGenerateMusic all503 = .ok .null :=
  C8_amended successAttempts all503 [("code", .num 500)] 503 "Service Unavailable"
    rfl rfl rfl

/-- Totality of the voice poller's body whenever the payload is a mapping whose
`data` field resolves to a mapping: every branch then lands on an `.ok` result,
i.e. no exception is raised. -/
theorem processPayload_total_on_obj (rkvs dkvs : List (String × JValue))
    (hdata : objGetD rkvs "data" (.obj []) = .obj dkvs) :
    ∃ s, processPayload (.obj rkvs) = .ok s := by
  unfold processPayload
  simp only [pyGet, pyGetD, hdata]
  repeat' split
  all_goals exact ⟨_, rfl⟩

/-- C9 counterexample: the normalization in `SunoStreamPlayer.wait_for_music`
raises (an `AttributeError`, absorbed only by the surrounding poll loop's
`try/except`) on the partial input whose `response` key holds an explicit
`null`, because `data.get('response', {})` defaults only for an absent key. So
"the response normalization never raises however malformed the payload" is false
for this cited implementation. -/
theorem C9_counterexample :
    streamPlayerProcess nullResponsePayload = .error () :=
  rfl

/-- C9 (amended): the voice poller's normalization never raises once the
payload's `data` field is a mapping (every branch returns normally); absent
track fields map to their documented defaults (`title` "Untitled", `tags` empty
string, `id` and `duration` `None`); unrecognized shapes normalize to the empty
track sequence (a non-list `sunoData` yields no tracks, and non-mapping entries
are skipped). The stream player's normalization, by contrast, raises on a
present-but-`null` `response` (absorbed upstream as a failed poll). -/
theorem C9_amended (rkvs dkvs kvs : List (String × JValue)) (v u : JValue)
    (rest : List JValue)
    (hdata : objGetD rkvs "data" (.obj []) = .obj dkvs)
    (htitle : lookupKV kvs "title" = none)
    (htags : lookupKV kvs "tags" = none)
    (hid : lookupKV kvs "id" = none)
    (hdur : lookupKV kvs "duration" = none)
    (hv : ∀ akvs : List (String × JValue), v ≠ .obj akvs)
    (hu : ∀ xs : List JValue, u ≠ .arr xs) :
    (∃ s, processPayload (.obj rkvs) = .ok s)
    ∧ (trackOfObj kvs).title = .str "Untitled"
    ∧ (trackOfObj kvs).tags = .str ""
    ∧ (trackOfObj kvs).id = .null
    ∧ (trackOfObj kvs).duration = .null
    ∧ extractReady u = []
    ∧ extractReady (.arr (v :: rest)) = extractReady (.arr rest)
    ∧ streamPlayerProcess nullResponsePayload = .error () := by
  refine ⟨processPayload_total_on_obj rkvs dkvs hdata, ?_, ?_, ?_, ?_, ?_, ?_, rfl⟩
  · simp [trackOfObj, objGetD, objGet, htitle]
  · simp [trackOfObj, objGetD, objGet, htags]
  · simp [trackOfObj, objGetD, objGet, hid]
  · simp [trackOfObj, objGetD, objGet, hdur]
  · cases u with
    | arr xs => exact absurd rfl (hu xs)
    | null => rfl
    | bool b => rfl
    | num n => rfl
    | str s => rfl
    | obj kvs2 => rfl
  · cases v with
    | obj akvs => exact absurd rfl (hv akvs)
    | null => simp [extractReady, List.filterMap_cons]
    | bool b => simp [extractReady, List.filterMap_cons]
    | num n => simp [extractReady, List.filterMap_cons]
    | str s => simp [extractReady, List.filterMap_cons]
    | arr ys => simp [extractReady, List.filterMap_cons]

/-- C9 amended, instantiated on a pending mapping payload, an empty track dict,
a string entry inside the track list and a `None` `sunoData`. -/
theorem C9_amended_witness :
    (∃ s, processPayload (.obj [("code", .num 200),
        ("data", .obj [("status", .str "PENDING")])]) = .ok s)
    ∧ (trackOfObj []).title = .str "Untitled"
    ∧ (trackOfObj []).tags = .str ""
    ∧ (trackOfObj []).id = .null
    ∧ (trackOfObj []).duration = .null
    ∧ extractReady .null = []
    ∧ extractReady (.arr (.str "oops" :: [])) = extractReady (.arr [])
    ∧ streamPlayerProcess nullResponsePayload = .error () :=
  C9_amended [("code", .num 200), ("data", .obj [("status", .str "PENDING")])]
    [("status", .str "PENDING")] [] (.str "oops") .null []
    rfl rfl rfl rfl rfl (fun _ h => JValue.noConfusion h) (fun _ h => JValue.noConfusion h)

/-- C10: when the poll at position `n` (all earlier polls still pending) returns
successfully with a non-terminal status and a `sunoData` list containing at
least one ready track, the wait returns on that very poll, delivering exactly
the ready subset of the payload's tracks in payload order — the not-yet-ready
sibling tracks are silently dropped from the result and this wait never
delivers them. -/
theorem C10_ready_subset (dkvs rkvs2 : List (String × JValue)) (suno : List JValue)
    (fetch : Nat → Except Unit JValue) (n : Nat)
    (hn1 : 1 ≤ n) (hn24 : n ≤ 24)
    (hstat1 : isStr (objGet dkvs "status") "SENSITIVE_WORD_ERROR" = false)
    (hstat2 : isStr (objGet dkvs "status") "FAILED" = false)
    (hresp : objGet dkvs "response" = .obj rkvs2)
    (hsuno : objGet rkvs2 "sunoData" = .arr suno)
    (hne : (suno.filter isReadyTrack).isEmpty = false)
    (hprev : ∀ m, 1 ≤ m → m < n → pollAttempt fetch m = .pending)
    (hf : fetch n = .ok (.obj [("code", .num 200), ("data", .obj dkvs)])) :
    wait_for_music_run fetch = .ready ((suno.filter isReadyTrack).map trackOf)
    ∧ wait_for_music fetch = (suno.filter isReadyTrack).map trackOf
    ∧ attemptsUsed fetch = n := by
  have hex : extractReady (.arr suno) = (suno.filter isReadyTrack).map trackOf :=
    extractReady_eq_filter suno
  have hexne : (extractReady (.arr suno)).isEmpty = false := by
    rw [hex]
    cases hfl : suno.filter isReadyTrack with
    | nil => rw [hfl] at hne; simp at hne
    | cons a l => simp
  have hstat1' : isStr (match lookupKV dkvs "status" with
      | some w => w | none => JValue.null) "SENSITIVE_WORD_ERROR" = false := hstat1
  have hstat2' : isStr (match lookupKV dkvs "status" with
      | some w => w | none => JValue.null) "FAILED" = false := hstat2
  have hresp' : (match lookupKV dkvs "response" with
      | some w => w | none => JValue.null) = JValue.obj rkvs2 := hresp
  have hsuno' : (match lookupKV rkvs2 "sunoData" with
      | some w => w | none => JValue.null) = JValue.arr suno := hsuno
  have hwit : ∃ x ∈ suno, isReadyTrack x = true := by
    cases hfl : suno.filter isReadyTrack with
    | nil => rw [hfl] at hne; simp at hne
    | cons a l =>
      have ha : a ∈ suno.filter isReadyTrack := by
        rw [hfl]
        exact List.mem_cons_self a l
      exact ⟨a, (List.mem_filter.mp ha).1, (List.mem_filter.mp ha).2⟩
  have hp : processPayload (.obj [("code", .num 200), ("data", .obj dkvs)])
      = .ok (.ready ((suno.filter isReadyTrack).map trackOf)) := by
    simp [processPayload, pyGet, pyGetD, objGetD, objGet, lookupKV, isNum, isNone,
          hstat1', hstat2', hresp', hsuno', hex, hexne]
    exact hwit
  have hpoll : pollAttempt fetch n = .ready ((suno.filter isReadyTrack).map trackOf) := by
    simp [pollAttempt, hf, hp]
  have hpre : ∀ m, 1 ≤ m → m < 1 + (n - 1) → pollAttempt fetch m = .pending := by
    intro m h1 h2
    exact hprev m h1 (by omega)
  have hskip := waitAux_skip fetch (n - 1) (25 - n) 1 hpre
  have e24 : 25 - n + (n - 1) = 24 := by omega
  have en : 1 + (n - 1) = n := by omega
  have e25 : 25 - n = (24 - n) + 1 := by omega
  have hrun : wait_for_music_run fetch
      = .ready ((suno.filter isReadyTrack).map trackOf) := by
    show waitAux fetch 24 1 = _
    rw [← e24, hskip.1, en, e25]
    exact waitAux_ready fetch (24 - n) n _ hpoll
  have hcount : attemptsUsed fetch = n := by
    show countAux fetch 24 1 = n
    rw [← e24, hskip.2, en, e25, countAux_ready fetch (24 - n) n _ hpoll]
    omega
  refine ⟨hrun, ?_, hcount⟩
  simp only [wait_for_music, hrun, finalValue]

/-- C10, instantiated: a payload with one ready track and one `"null"`-URL
sibling delivers exactly the ready one on the first poll. -/
theorem C10_ready_subset_witness :
    wait_for_music_run mixedFetch
      = .ready ((([.obj songTrackKVs, .obj nullTrackKVs] : List JValue).filter
          isReadyTrack).map trackOf)
    ∧ wait_for_music mixedFetch
      = (([.obj songTrackKVs, .obj nullTrackKVs] : List JValue).filter
          isReadyTrack).map trackOf
    ∧ attemptsUsed mixedFetch = 1 :=
  C10_ready_subset mixedDataKVs [("sunoData", .arr [.obj songTrackKVs, .obj nullTrackKVs])]
    [.obj songTrackKVs, .obj nullTrackKVs] mixedFetch 1 (by omega) (by omega)
    rfl rfl rfl rfl rfl (fun m h1 h2 => absurd h2 (by omega)) rfl
